import Mathlib

/-!
Shallow embedding of `src/backend/ppt_designer_backend.py`
(class `PPTDesignerSystem`) and verification of the specification's
claims about it.

Modelling conventions:
* Python `float` arithmetic is modelled by exact rational arithmetic (`ℚ`);
  all quantities involved are small dyadic/decimal values and the claims
  state exact algebraic identities.
* The `user_responses` dict is modelled as an insertion-ordered association
  list; `dict` assignment replaces the value of an existing key in place.
* A response value (`response: Any` in the source) is modelled as the tagged
  union `Value` (string / bool / int / list of strings), with Python
  truthiness made explicit.
* Code paths that raise in Python (out-of-range list indexing, calling
  `.lower()` on a non-string, using an unhashable key in `dict.get`) are
  modelled with `Except Unit`.
* `datetime.now()` timestamps and the generated `profile_id` are ambient
  I/O effects outside the pure computation; they are omitted from the model
  (no claim mentions them).
-/

set_option maxHeartbeats 1000000

namespace PPTDesigner

/-- Python `class QuestionType(Enum)` from the source. -/
inductive QuestionType : Type
| single_choice
| multiple_choice
| text
| boolean
| boolean_with_details
deriving DecidableEq

/-- Python `@dataclass class Question` from the source (weight is a Python `int`). -/
structure Question : Type where
question_id : String
question_text : String
question_type : QuestionType
required : Bool
weight : ℤ
options : Option (List String) := none
follow_up : Option String := none
placeholder : Option String := none
deriving DecidableEq

/-- A Python response value (`response: Any`): the shapes that the
questionnaire produces (text, boolean, number, or list of selections). -/
inductive Value : Type
| vStr (s : String)
| vBool (b : Bool)
| vInt (n : ℤ)
| vList (l : List String)
deriving DecidableEq

/-- Python truthiness of a `Value` (`if response.response:`). -/
def Value.truthy : Value → Bool
| .vStr s => s != ""
| .vBool b => b
| .vInt n => n != 0
| .vList l => !l.isEmpty

/-- Python `@dataclass class UserResponse` (timestamp omitted, see header). -/
structure UserResponse : Type where
question_id : String
response : Value
additional_details : Option String := none
deriving DecidableEq

/-- The `user_responses: Dict[str, UserResponse]` store, as an
insertion-ordered association list with at most one entry per key. -/
abbrev Store : Type := List (String × UserResponse)

/-- Dict lookup `self.user_responses.get(k)` / `k in self.user_responses`. -/
def storeLookup (st : Store) (k : String) : Option UserResponse :=
(st.find? (fun p => p.1 == k)).map Prod.snd

/-- Dict assignment `self.user_responses[k] = r`: replace in place when the key exists
(Python dicts keep the original insertion position), else append. -/
def storeSet (st : Store) (k : String) (r : UserResponse) : Store :=
if st.any (fun p => p.1 == k) then
  st.map (fun p => if p.1 == k then (k, r) else p)
else st ++ [(k, r)]

/-- The six fixed scoring categories. -/
inductive Category : Type
| content_goals
| audience_context
| design_preferences
| technical_requirements
| timeline_resources
| scalability
deriving DecidableEq

/-- One entry of an `implementation_roadmaps` table; every field is read
with `.get(..., default)` in the source, hence `Option`. -/
structure Roadmap : Type where
steps : Option (List String) := none
resources : Option String := none
customization_level : Option String := none
deriving DecidableEq

/-- A `section` object of the configuration document. -/
structure WSection : Type where
section_id : String
strategic_questions : List Question
implementation_roadmaps : List (String × Roadmap) := []
deriving DecidableEq

/-- A `phase` object of the configuration document. -/
structure WPhase : Type where
sections : List WSection
deriving DecidableEq

/-- The loaded configuration document: `workflow_phases` plus
`scoring_system.weight_distribution` (the claims quantify over
configurations covering all six categories, so the table is total). -/
structure Config : Type where
workflow_phases : List WPhase
weight_distribution : Category → ℚ

/-- Python `@dataclass class TemplateRecommendation`. -/
structure TemplateRecommendation : Type where
template_name : String
template_url : String
match_score : ℚ
style_tags : List String
pros : List String
cons : List String
customization_difficulty : String
preview_image : Option String := none
deriving DecidableEq

/-- A template record of the externally supplied catalog; fields the source
reads with `.get(key, default)` are optional with that default applied at
the use site. -/
structure Template : Type where
name : String
url : String
style_tags : List String := []
color_schemes : List String := []
suitable_for : List String := []
compatible_versions : List String := []
pros : List String := []
cons : List String := []
difficulty : Option String := none
preview_image : Option String := none
deriving DecidableEq

/-- The mutable fields of `PPTDesignerSystem.__init__`. -/
structure System : Type where
config : Config
user_responses : Store := []
current_phase : ℤ := 1
current_section : ℤ := 1
recommendations : List TemplateRecommendation := []

/-- Python list indexing `l[i]` with an `int` index: negative indices wrap
once; an index outside `[-len, len)` raises `IndexError`. -/
def pyIndex {α : Type} (l : List α) (i : ℤ) : Except Unit α :=
let j : ℤ := if i < 0 then i + (l.length : ℤ) else i
if 0 ≤ j then
  match l[j.toNat]? with
  | some a => .ok a
  | none => .error ()
else
  .error ()

/-- Source `get_all_questions`: all questions of all phases, in document order. -/
def get_all_questions (cfg : Config) : List Question :=
cfg.workflow_phases.flatMap (fun ph =>
  ph.sections.flatMap (fun sec => sec.strategic_questions))

/-- Source `get_questions_by_phase`: `self.config['workflow_phases'][phase_id - 1]`
followed by the same per-section flattening. -/
def get_questions_by_phase (sys : System) (phase_id : ℤ) :
    Except Unit (List Question) :=
(pyIndex sys.config.workflow_phases (phase_id - 1)).map (fun ph =>
  ph.sections.flatMap (fun sec => sec.strategic_questions))

/-- Source `submit_response`: build a `UserResponse`, store it under its id
(last-write-wins), return `True`. -/
def submit_response (sys : System) (question_id : String) (response : Value)
    (additional_details : Option String := none) : Bool × System :=
let r : UserResponse :=
  { question_id := question_id
    response := response
    additional_details := additional_details }
(true, { sys with user_responses := storeSet sys.user_responses question_id r })

/-- Characters of a string up to (not including) the `(n+2)`-nd dot:
`upToDot 1 cs` keeps everything strictly before the second `'.'`. -/
def upToDot (n : ℕ) : List Char → List Char
| [] => []
| c :: cs =>
  if c = '.' then
    match n with
    | 0 => []
    | m + 1 => c :: upToDot m cs
  else c :: upToDot n cs

/-- Python `'.'.join(question_id.split('.')[:2])`: joining the first two
`'.'`-separated segments with `'.'` returns exactly the characters
before the second dot (the whole string when it has at most one dot). -/
def twoLevelId (question_id : String) : String :=
⟨upToDot 1 question_id.toList⟩

/-- The hard-coded `category_mapping` dict of `calculate_profile_score`
(`dict.get`: `none` for an unknown two-level id). -/
def category_mapping (p : String) : Option Category :=
if p == "q1.1" then some .content_goals
else if p == "q1.2" then some .audience_context
else if p == "q1.3" then some .design_preferences
else if p == "q2.1" then some .design_preferences
else if p == "q2.2" then some .technical_requirements
else if p == "q3.1" then some .content_goals
else if p == "q3.2" then some .audience_context
else if p == "q4.1" then some .technical_requirements
else if p == "q4.2" then some .technical_requirements
else if p == "q5.1" then some .timeline_resources
else if p == "q5.2" then some .scalability
else none

/-- Source `_find_question`: first question of the catalog with the given id. -/
def find_question (cfg : Config) (question_id : String) : Option Question :=
(get_all_questions cfg).find? (fun q => q.question_id == question_id)

/-- One iteration of the response loop of `calculate_profile_score`:
if the key's two-level id is mapped and the question is found and the
value is truthy, add `weight / 10.0` to that category's total. -/
def scoreStep (cfg : Config) (acc : Category → ℚ) (entry : String × UserResponse) :
    Category → ℚ :=
match category_mapping (twoLevelId entry.1) with
| none => acc
| some cat =>
  match find_question cfg entry.1 with
  | none => acc
  | some q =>
    if entry.2.response.truthy then
      fun c => if c = cat then acc c + (q.weight : ℚ) / 10 else acc c
    else acc

/-- Source `calculate_profile_score`: fold the store, then cap each category at
`min(total * 2, max_scores[category])`. -/
def calculate_profile_score (sys : System) : Category → ℚ :=
let raw : Category → ℚ := sys.user_responses.foldl (scoreStep sys.config) (fun _ => 0)
fun c => min (raw c * 2) (sys.config.weight_distribution c)

/-- Python `str.lower()` (identity on non-cased characters; the source and
the claims only exercise ASCII and Korean text, where this agrees with
per-character lowercasing). -/
def pyLower (s : String) : String := ⟨s.toList.map Char.toLower⟩

/-- Style factor of `calculate_template_match_score`:
`user_style.response.lower() in template_data.get('style_tags', [])`.
Only the response is lowercased. Calling `.lower()` on a non-string
response raises `AttributeError` in Python, hence `Except`. -/
def styleFactor (st : Store) (t : Template) : Except Unit ℚ :=
match storeLookup st "q2.1.1" with
| none => .ok 0
| some r =>
  match r.response with
  | .vStr s => .ok (if pyLower s ∈ t.style_tags then 25 else 0)
  | _ => .error ()

/-- Python `v in listOfStrings`: only a string can equal a string. -/
def valueMem (v : Value) (l : List String) : Bool :=
match v with
| .vStr s => l.contains s
| _ => false

/-- Color factor: response to `q1.3.2` appears in `color_schemes`. -/
def colorFactor (st : Store) (t : Template) : ℚ :=
match storeLookup st "q1.3.2" with
| none => 0
| some r => if valueMem r.response t.color_schemes then 20 else 0

/-- Functionality factor: response to `q1.1.1` appears in `suitable_for`. -/
def functionalityFactor (st : Store) (t : Template) : ℚ :=
match storeLookup st "q1.1.1" with
| none => 0
| some r => if valueMem r.response t.suitable_for then 30 else 0

/-- Technical factor: response to `q2.2.1` appears in `compatible_versions`. -/
def technicalFactor (st : Store) (t : Template) : ℚ :=
match storeLookup st "q2.2.1" with
| none => 0
| some r => if valueMem r.response t.compatible_versions then 25 else 0

/-- Source `calculate_template_match_score`: the four all-or-nothing factors summed
and capped at 100.  (The source also computes `calculate_profile_score` and
its sum `total_score` first; that value is never used, which the binding
below keeps visible.) -/
def calculate_template_match_score (sys : System) (t : Template) :
    Except Unit ℚ :=
let _total : ℚ :=
  calculate_profile_score sys .content_goals +
  calculate_profile_score sys .audience_context +
  calculate_profile_score sys .design_preferences +
  calculate_profile_score sys .technical_requirements +
  calculate_profile_score sys .timeline_resources +
  calculate_profile_score sys .scalability
match styleFactor sys.user_responses t with
| .error e => .error e
| .ok sf =>
  .ok (min (sf + colorFactor sys.user_responses t +
            functionalityFactor sys.user_responses t +
            technicalFactor sys.user_responses t) 100)

/-- Build one `TemplateRecommendation` from a template and its score
(defaults as in the source's `.get` calls). -/
def mkRecommendation (t : Template) (score : ℚ) : TemplateRecommendation :=
{ template_name := t.name
  template_url := t.url
  match_score := score
  style_tags := t.style_tags
  pros := t.pros
  cons := t.cons
  customization_difficulty := t.difficulty.getD "medium"
  preview_image := t.preview_image }

/-- Score every template of the catalog in order (the loop of
`generate_recommendations`); the first Python exception aborts the call. -/
def scoreTemplates (sys : System) : List Template →
    Except Unit (List TemplateRecommendation)
| [] => .ok []
| t :: ts =>
  match calculate_template_match_score sys t with
  | .error e => .error e
  | .ok s =>
    match scoreTemplates sys ts with
    | .error e => .error e
    | .ok rest => .ok (mkRecommendation t s :: rest)

/-- The comparator realised by Python's stable
`list.sort(key=lambda x: x.match_score, reverse=True)`. -/
def recLE (a b : TemplateRecommendation) : Bool :=
decide (b.match_score ≤ a.match_score)

/-- Source `generate_recommendations`: score all templates, stable-sort by score
descending, cache the full sorted list in `self.recommendations`, return
the first 10. -/
def generate_recommendations (sys : System)
    (templates_database : List Template) :
    Except Unit (List TemplateRecommendation × System) :=
match scoreTemplates sys templates_database with
| .error e => .error e
| .ok recs =>
  let sorted := recs.mergeSort recLE
  .ok (sorted.take 10, { sys with recommendations := sorted })

/-- The plan dict built by `generate_implementation_plan`.
`customization_level` is `none` exactly when the source never sets the key. -/
structure Plan : Type where
timeline : Value
experience_level : Value
phases : List String
resources_needed : List String
estimated_hours : ℤ
customization_level : Option String
deriving DecidableEq

/-- The timeline→roadmap-key dict lookup
`{'1일': ..., '1주': ..., '1개월': ...}.get(timeline.response,
'standard_timeline_1week')`.  A Python list is unhashable, so using it as a
`dict.get` key raises `TypeError`. -/
def timelineKey (v : Value) : Except Unit String :=
match v with
| .vList _ => .error ()
| .vStr "1일" => .ok "tight_timeline_1day"
| .vStr "1주" => .ok "standard_timeline_1week"
| .vStr "1개월" => .ok "extended_timeline_1month"
| _ => .ok "standard_timeline_1week"

/-- Dict lookup `implementation_roadmaps.get(timeline_key, {})`. -/
def roadmapGet (rs : List (String × Roadmap)) (k : String) : Option Roadmap :=
(rs.find? (fun p => p.1 == k)).map Prod.snd

/-- Source `generate_implementation_plan`: defaults for the labels, then — only
when a timeline response exists — look up
`config['workflow_phases'][4]['sections'][0]['implementation_roadmaps']`
and fill phases / resources / customization level from the mapped roadmap. -/
def generate_implementation_plan (sys : System) : Except Unit Plan :=
let timeline := storeLookup sys.user_responses "q5.1.1"
let experience := storeLookup sys.user_responses "q5.1.2"
let base : Plan :=
  { timeline := match timeline with
      | some r => r.response
      | none => .vStr "1주"
    experience_level := match experience with
      | some r => r.response
      | none => .vStr "중급자"
    phases := []
    resources_needed := []
    estimated_hours := 0
    customization_level := none }
match timeline with
| none => .ok base
| some tr =>
  match timelineKey tr.response with
  | .error e => .error e
  | .ok key =>
    match pyIndex sys.config.workflow_phases 4 with
    | .error e => .error e
    | .ok ph =>
      match pyIndex ph.sections 0 with
      | .error e => .error e
      | .ok sec =>
        let roadmap := roadmapGet sec.implementation_roadmaps key
        .ok { base with
          phases := (roadmap.bind Roadmap.steps).getD []
          resources_needed := [(roadmap.bind Roadmap.resources).getD ""]
          customization_level :=
            some ((roadmap.bind Roadmap.customization_level).getD "moderate") }

/-- One entry of the `recommendations` list of the exported profile. -/
structure ExportedRec : Type where
name : String
url : String
score : ℚ
deriving DecidableEq

/-- The pure content of `export_user_profile` (`profile_id` and the
timestamps are `datetime.now()` effects, omitted — see the header). -/
structure UserProfile : Type where
responses : List (String × Value × Option String)
profile_scores : Category → ℚ
recommendations : List ExportedRec

/-- Source `export_user_profile`: snapshot of the responses, freshly computed
profile scores, and the first 5 entries of the **cached**
`self.recommendations` field. -/
def export_user_profile (sys : System) : UserProfile :=
{ responses := sys.user_responses.map
    (fun p => (p.1, p.2.response, p.2.additional_details))
  profile_scores := calculate_profile_score sys
  recommendations := (sys.recommendations.take 5).map
    (fun r => { name := r.template_name
                url := r.template_url
                score := r.match_score }) }

/-- Source `get_progress_percentage`: answered required questions over all
required questions, times 100; `100.0` when none are required. -/
def get_progress_percentage (sys : System) : ℚ :=
let required_questions :=
  (get_all_questions sys.config).filter (fun q => q.required)
let answered_required :=
  required_questions.countP
    (fun q => (storeLookup sys.user_responses q.question_id).isSome)
if required_questions.isEmpty then 100
else ((answered_required : ℚ) / (required_questions.length : ℚ)) * 100

/-! Helpers for stating the claims, and concrete instances used by
counterexamples and witnesses. -/

/-- The questions of one phase, flattened in document order (the loop body
shared by `get_all_questions` and `get_questions_by_phase`). -/
def phaseQuestions (ph : WPhase) : List Question :=
ph.sections.flatMap (fun sec => sec.strategic_questions)

/-- The per-category contribution list claimed for `calculate_profile_score`:
`weight / 10.0` for every stored response whose two-level id maps to the
category, whose question is found in the catalog, and whose value is truthy. -/
def categoryContribs (cfg : Config) (st : Store) (c : Category) : List ℚ :=
st.filterMap (fun e =>
  match category_mapping (twoLevelId e.1), find_question cfg e.1 with
  | some cat, some q =>
    if cat = c ∧ e.2.response.truthy = true then some ((q.weight : ℚ) / 10)
    else none
  | _, _ => none)

/-- Stated from the spec's words for claim C6: the response "appears
case-insensitively in the template's style tags". -/
def ciMemSpec (s : String) (tags : List String) : Bool :=
tags.any (fun tg => pyLower tg == pyLower s)

/-- Holds precisely when the stored value (if any) would survive Python's
`.lower()` call, i.e. is a string. -/
def isVStr : Value → Bool
| .vStr _ => true
| _ => false

/-- Shorthand for building a `UserResponse` with no details. -/
def resp (question_id : String) (v : Value) : UserResponse :=
{ question_id := question_id, response := v }

/-- Concrete catalog questions (ids and weights follow the configuration
examples in the specification). -/
def qContent : Question :=
{ question_id := "q1.1.1", question_text := "주요 목표",
  question_type := .single_choice, required := true, weight := 8 }

/-- Second sample question (audience category, weight 6). -/
def qAudience : Question :=
{ question_id := "q1.2.1", question_text := "대상",
  question_type := .single_choice, required := true, weight := 6 }

/-- Sample design-style question. -/
def qStyle : Question :=
{ question_id := "q2.1.1", question_text := "디자인 스타일",
  question_type := .single_choice, required := false, weight := 9 }

/-- Sample timeline question. -/
def qTimeline : Question :=
{ question_id := "q5.1.1", question_text := "제작 기간",
  question_type := .single_choice, required := false, weight := 7 }

/-- Sample question with a negative configured weight. -/
def qNegWeight : Question :=
{ question_id := "q1.1.2", question_text := "가중치 음수",
  question_type := .text, required := false, weight := -5 }

/-- The standard one-week roadmap of the concrete configuration. -/
def roadmapStd : Roadmap :=
{ steps := some ["기획", "디자인", "제작"], resources := some "PowerPoint",
  customization_level := some "moderate" }

/-- The tight one-day roadmap of the concrete configuration. -/
def roadmapTight : Roadmap :=
{ steps := some ["템플릿 선택", "내용 입력"], resources := some "템플릿",
  customization_level := some "minimal" }

/-- A five-phase concrete configuration (phase 5 carries the roadmaps, as
`generate_implementation_plan` reads `workflow_phases[4].sections[0]`). -/
def cfgMain : Config :=
{ workflow_phases :=
    [ { sections := [{ section_id := "1.1",
                       strategic_questions := [qContent, qAudience] }] }
    , { sections := [{ section_id := "2.1",
                       strategic_questions := [qStyle] }] }
    , { sections := [] }
    , { sections := [] }
    , { sections := [{ section_id := "5.1",
                       strategic_questions := [qTimeline],
                       implementation_roadmaps :=
                         [ ("tight_timeline_1day", roadmapTight)
                         , ("standard_timeline_1week", roadmapStd) ] }] } ]
  weight_distribution := fun _ => 20 }

/-- A configuration containing a question with negative weight. -/
def cfgNeg : Config :=
{ workflow_phases :=
    [ { sections := [{ section_id := "1.1",
                       strategic_questions := [qNegWeight] }] } ]
  weight_distribution := fun _ => 20 }

/-- A configuration with no questions at all (so no required questions). -/
def cfgEmpty : Config :=
{ workflow_phases := []
  weight_distribution := fun _ => 20 }

/-- System on `cfgMain` with an empty response store. -/
def sysMain : System := { config := cfgMain }

/-- System realising the specification's scoring scenario:
only `q1.1.1 = "교육"` submitted. -/
def sysW : System :=
{ config := cfgMain
  user_responses := [("q1.1.1", resp "q1.1.1" (.vStr "교육"))] }

/-- System on the negative-weight configuration with a truthy response. -/
def sysNeg : System :=
{ config := cfgNeg
  user_responses := [("q1.1.2", resp "q1.1.2" (.vStr "x"))] }

/-- System whose design-style response is a boolean, not a string. -/
def sysBad : System :=
{ config := cfgMain
  user_responses := [("q2.1.1", resp "q2.1.1" (.vBool true))] }

/-- System realising the specification's matching scenario: style
`"minimal"`, color `"beige_orange"`, goal `"교육"`, version absent. -/
def sysMatch : System :=
{ config := cfgMain
  user_responses :=
    [ ("q2.1.1", resp "q2.1.1" (.vStr "minimal"))
    , ("q1.3.2", resp "q1.3.2" (.vStr "beige_orange"))
    , ("q1.1.1", resp "q1.1.1" (.vStr "교육")) ] }

/-- System storing the lowercase style response `"minimal"`. -/
def sysC6 : System :=
{ config := cfgMain
  user_responses := [("q2.1.1", resp "q2.1.1" (.vStr "minimal"))] }

/-- System on `cfgMain` holding an unrecognized timeline response. -/
def sysUnrec : System :=
{ config := cfgMain
  user_responses := [("q5.1.1", resp "q5.1.1" (.vStr "2개월"))] }

/-- A concrete template matching the specification's scenario. -/
def tMinimal : Template :=
{ name := "Minimal Beige Professional"
  url := "https://example.com/template1"
  style_tags := ["minimal", "modern", "professional"]
  color_schemes := ["beige_orange"]
  suitable_for := ["교육", "정보 전달"]
  compatible_versions := ["2019", "2021", "Microsoft 365"]
  pros := ["깔끔한 디자인"]
  cons := ["애니메이션 제한적"]
  difficulty := some "easy" }

/-- A template whose only style tag differs from `"minimal"` just by case. -/
def tUpper : Template :=
{ name := "Uppercase Tagged"
  url := "https://example.com/template9"
  style_tags := ["Minimal"] }

/-- The recommendations produced for `sysMatch` over
`[tMinimal, tUpper]`, already in descending score order. -/
def recsW : List TemplateRecommendation :=
[mkRecommendation tMinimal 75, mkRecommendation tUpper 0]

/-- State of `sysMatch` after `generate_recommendations` cached `recsW`. -/
def sysMatchAfter : System := { sysMatch with recommendations := recsW }

/-- A dangling cached recommendation used to exhibit the stale-cache
behavior of `export_user_profile`. -/
def recStale : TemplateRecommendation :=
{ template_name := "Stale", template_url := "https://example.com/stale",
  match_score := 75, style_tags := [], pros := [], cons := [],
  customization_difficulty := "easy" }

/-- System with an empty cache (same config and store as `sysC7b`). -/
def sysC7a : System := { config := cfgMain, user_responses := [] }

/-- System identical to `sysC7a` except for the cached recommendations. -/
def sysC7b : System :=
{ config := cfgMain, user_responses := [], recommendations := [recStale] }

/-- System with no questions in the catalog but a stored response. -/
def sysNoQ : System :=
{ config := cfgEmpty
  user_responses := [("q9.9.9", resp "q9.9.9" (.vStr "zzz"))] }

/-- Store agreeing with `sysMatch` on the four designated ids but holding
an extra unrelated response. -/
def sysMatchPlus : System :=
{ config := cfgMain
  user_responses :=
    [ ("q2.1.1", resp "q2.1.1" (.vStr "minimal"))
    , ("q1.3.2", resp "q1.3.2" (.vStr "beige_orange"))
    , ("q1.1.1", resp "q1.1.1" (.vStr "교육"))
    , ("q9.9.9", resp "q9.9.9" (.vStr "관계없음")) ] }

/-! Shared helper lemmas. -/

/-- Folding `scoreStep` over a store adds exactly the claimed per-category
contribution list to the accumulator. -/
theorem foldl_scoreStep (cfg : Config) (c : Category) :
    ∀ (st : Store) (acc : Category → ℚ),
      st.foldl (scoreStep cfg) acc c = acc c + (categoryContribs cfg st c).sum
| [], acc => by simp [categoryContribs]
| e :: st, acc => by
  rw [List.foldl_cons, foldl_scoreStep cfg c st (scoreStep cfg acc e)]
  have h2 : categoryContribs cfg (e :: st) c =
      categoryContribs cfg [e] c ++ categoryContribs cfg st c := by
    unfold categoryContribs
    rw [← List.singleton_append, List.filterMap_append]
  have h : scoreStep cfg acc e c = acc c + (categoryContribs cfg [e] c).sum := by
    unfold scoreStep categoryContribs
    rw [List.filterMap_cons, List.filterMap_nil]
    cases hm : category_mapping (twoLevelId e.1) with
    | none => simp
    | some cat =>
      cases hq : find_question cfg e.1 with
      | none => simp
      | some q =>
        by_cases ht : e.2.response.truthy = true
        · by_cases hc : c = cat
          · subst hc
            simp [ht]
          · have hc' : ¬ (cat = c) := fun hh => hc hh.symm
            simp [ht, hc, hc']
        · simp [ht]
  rw [h, h2, List.sum_append]
  ring

/-! Claim C1. -/

/-- Claim C1, counterexample.: The claim asserts every category score lies in
`[0, categoryMax]` for every configuration covering the six categories; on
the configuration `cfgNeg` (question `q1.1.2` with configured weight `-5`,
all category maxima `20`) and a store holding a truthy response to it,
`calculate_profile_score` returns `min(-0.5 * 2, 20) = -1 < 0`. -/
theorem C1_counterexample : calculate_profile_score sysNeg .content_goals < 0 := by
  have h1 : category_mapping (twoLevelId "q1.1.2") = some .content_goals := by decide
  have h2 : find_question cfgNeg "q1.1.2" = some qNegWeight := by decide
  have h3 : (resp "q1.1.2" (.vStr "x")).response.truthy = true := by decide
  have h : calculate_profile_score sysNeg .content_goals = -1 := by
    simp only [calculate_profile_score, sysNeg, List.foldl_cons, List.foldl_nil,
      scoreStep, h1, h2, h3, if_pos, qNegWeight]
    norm_num [cfgNeg]
  rw [h]
  norm_num

/-- Claim C1 (amended).: Provided every catalog question weight is
nonnegative and every configured category maximum is nonnegative,
`calculate_profile_score` assigns to each of the six categories (the
result is total on `Category`, so all six are present) the value
`min(2 * Σ weight/10, categoryMax)` where the sum ranges over stored
responses whose two-level id maps to the category, whose question is in
the catalog, and whose value is truthy; each score lies in
`[0, categoryMax]`, and a category with no contributing responses
scores `0`. -/
theorem C1_categoryScores (sys : System)
    (hw : ∀ q ∈ get_all_questions sys.config, 0 ≤ q.weight)
    (hd : ∀ c : Category, 0 ≤ sys.config.weight_distribution c)
    (c : Category) :
    calculate_profile_score sys c =
      min (2 * (categoryContribs sys.config sys.user_responses c).sum)
        (sys.config.weight_distribution c) ∧
    0 ≤ calculate_profile_score sys c ∧
    calculate_profile_score sys c ≤ sys.config.weight_distribution c ∧
    (categoryContribs sys.config sys.user_responses c = [] →
      calculate_profile_score sys c = 0) := by
  have hsum : 0 ≤ (categoryContribs sys.config sys.user_responses c).sum := by
    apply List.sum_nonneg
    intro x hx
    simp only [categoryContribs, List.mem_filterMap] at hx
    obtain ⟨e, _, hfe⟩ := hx
    split at hfe
    · rename_i cat q _ hq
      split at hfe
      · have hx' : (q.weight : ℚ) / 10 = x := by
          exact Option.some.inj hfe
        have hq' : q ∈ get_all_questions sys.config :=
          List.mem_of_find?_eq_some hq
        have hw' : (0 : ℚ) ≤ (q.weight : ℚ) := by
          exact_mod_cast hw q hq'
        rw [← hx']
        positivity
      · simp at hfe
    · simp at hfe
  have hmain : calculate_profile_score sys c =
      min (2 * (categoryContribs sys.config sys.user_responses c).sum)
        (sys.config.weight_distribution c) := by
    unfold calculate_profile_score
    rw [foldl_scoreStep sys.config c sys.user_responses (fun _ => 0)]
    rw [zero_add, mul_comm]
  refine ⟨hmain, ?_, ?_, ?_⟩
  · rw [hmain]
    exact le_min (by linarith) (hd c)
  · rw [hmain]
    exact min_le_right _ _
  · intro h
    rw [hmain, h]
    simp [min_eq_left (hd c)]

/-- Claim C1, witness.: The specification's concrete scenario: catalog with
`q1.1.1` (weight 8) and `q1.2.1` (weight 6), all maxima 20, one response
`q1.1.1 = "교육"`; the amended theorem applies and yields the bounded
formula and nonnegativity. -/
theorem C1_witness :
    (∀ q ∈ get_all_questions sysW.config, 0 ≤ q.weight) ∧
    calculate_profile_score sysW .content_goals =
      min (2 * (categoryContribs sysW.config sysW.user_responses .content_goals).sum)
        (sysW.config.weight_distribution .content_goals) ∧
    0 ≤ calculate_profile_score sysW .content_goals := by
  have hw : ∀ q ∈ get_all_questions sysW.config, 0 ≤ q.weight := by decide
  have hd : ∀ c : Category, 0 ≤ sysW.config.weight_distribution c := by
    intro c
    norm_num [sysW, cfgMain]
  have h := C1_categoryScores sysW hw hd .content_goals
  exact ⟨hw, h.1, h.2.1⟩

/-! Claim C9. -/

/-- Claim C9 (confirmed).: `get_progress_percentage` returns the number of
required questions whose id has a stored response divided by the total
number of required questions, times 100, and returns exactly `100.0`
whenever the set of required questions is empty, for every response store
state (the division branch is guarded, so no division by zero occurs). -/
theorem C9_progress (sys : System) :
    (((get_all_questions sys.config).filter (fun q => q.required)).isEmpty = true →
      get_progress_percentage sys = 100) ∧
    (((get_all_questions sys.config).filter (fun q => q.required)).isEmpty = false →
      get_progress_percentage sys =
        ((((get_all_questions sys.config).filter (fun q => q.required)).countP
            (fun q => (storeLookup sys.user_responses q.question_id).isSome) : ℚ) /
          (((get_all_questions sys.config).filter (fun q => q.required)).length : ℚ)) *
          100) := by
  unfold get_progress_percentage
  constructor <;> intro h <;> simp [h]

/-- Claim C9, witness.: On `sysW` one of the two required questions is
answered, giving `1/2 * 100 = 50`; on `sysNoQ` (no questions configured at
all, one stray stored response) progress is `100`. -/
theorem C9_witness :
    get_progress_percentage sysW = 50 ∧ get_progress_percentage sysNoQ = 100 := by
  constructor
  · have h := (C9_progress sysW).2 (by decide)
    have hc : ((get_all_questions sysW.config).filter (fun q => q.required)).countP
        (fun q => (storeLookup sysW.user_responses q.question_id).isSome) = 1 := by decide
    have hl : ((get_all_questions sysW.config).filter (fun q => q.required)).length = 2 := by
      decide
    rw [h, hc, hl]
    norm_num
  · exact (C9_progress sysNoQ).1 (by decide)

/-! Claim C10. -/

/-- Claim C10 (confirmed).: For every template, two systems whose stores agree
on the responses stored (or absent) for the four designated ids
`q2.1.1`, `q1.3.2`, `q1.1.1`, `q2.2.1` receive the same result from
`calculate_template_match_score`; no other stored response influences it
(the profile-score sum the source also computes is dead code). -/
theorem C10_noninterference (sysA sysB : System) (t : Template)
    (h1 : storeLookup sysA.user_responses "q2.1.1" =
      storeLookup sysB.user_responses "q2.1.1")
    (h2 : storeLookup sysA.user_responses "q1.3.2" =
      storeLookup sysB.user_responses "q1.3.2")
    (h3 : storeLookup sysA.user_responses "q1.1.1" =
      storeLookup sysB.user_responses "q1.1.1")
    (h4 : storeLookup sysA.user_responses "q2.2.1" =
      storeLookup sysB.user_responses "q2.2.1") :
    calculate_template_match_score sysA t = calculate_template_match_score sysB t := by
  simp only [calculate_template_match_score, styleFactor, colorFactor,
    functionalityFactor, technicalFactor]
  rw [h1, h2, h3, h4]

/-- Claim C10, witness.: `sysMatchPlus` extends `sysMatch`'s store with an
unrelated response (`q9.9.9`); the match scores coincide. -/
theorem C10_witness :
    calculate_template_match_score sysMatch tMinimal =
      calculate_template_match_score sysMatchPlus tMinimal := by
  exact C10_noninterference sysMatch sysMatchPlus tMinimal
    (by decide) (by decide) (by decide) (by decide)

/-! Claim C6. -/

/-- Claim C6, counterexample.: The response `"minimal"` appears
case-insensitively (`ciMemSpec`) in `tUpper`'s style tags `["Minimal"]`,
yet the match score of `tUpper` for `sysC6` is `0`: the style factor did
not trigger, because the source lowercases only the response, never the
tags. -/
theorem C6_counterexample :
    ciMemSpec "minimal" tUpper.style_tags = true ∧
    storeLookup sysC6.user_responses "q2.1.1" =
      some (resp "q2.1.1" (.vStr "minimal")) ∧
    calculate_template_match_score sysC6 tUpper = .ok 0 := by
  refine ⟨by decide, by decide, ?_⟩
  have h1 : styleFactor sysC6.user_responses tUpper = .ok 0 := rfl
  have h2 : colorFactor sysC6.user_responses tUpper = 0 := rfl
  have h3 : functionalityFactor sysC6.user_responses tUpper = 0 := rfl
  have h4 : technicalFactor sysC6.user_responses tUpper = 0 := rfl
  simp only [calculate_template_match_score, h1, h2, h3, h4]
  norm_num

/-- Claim C6 (amended).: When the stored `q2.1.1` response is the string `s`,
the style factor is `25` iff `lower(s)` appears **verbatim** among the
template's style tags (so the comparison is insensitive to the response's
case only: a response differing solely in case from a lowercase tag still
triggers, while an uppercase tag never matches); otherwise the factor
is `0`. -/
theorem C6_styleFactor (st : Store) (t : Template) (rid : String)
    (s : String) (rd : Option String)
    (hl : storeLookup st "q2.1.1" =
      some { question_id := rid, response := .vStr s, additional_details := rd }) :
    (styleFactor st t = .ok 25 ↔ pyLower s ∈ t.style_tags) ∧
    (pyLower s ∉ t.style_tags → styleFactor st t = .ok 0) := by
  unfold styleFactor
  rw [hl]
  show (Except.ok (if pyLower s ∈ t.style_tags then (25 : ℚ) else 0) =
      Except.ok 25 ↔ pyLower s ∈ t.style_tags) ∧
    (pyLower s ∉ t.style_tags →
      Except.ok (if pyLower s ∈ t.style_tags then (25 : ℚ) else 0) = Except.ok 0)
  constructor
  · constructor
    · intro h
      by_contra hmem
      rw [if_neg hmem] at h
      have h0 : (0 : ℚ) = 25 := by
        exact_mod_cast Except.ok.inj h
      norm_num at h0
    · intro h
      rw [if_pos h]
  · intro h
    rw [if_neg h]

/-- Claim C6, witness.: The lowercase response `"minimal"` triggers the factor
against `tMinimal`'s lowercase tags and leaves it `0` against `tUpper`'s
capitalized tag. -/
theorem C6_witness :
    styleFactor sysC6.user_responses tMinimal = .ok 25 ∧
    styleFactor sysC6.user_responses tUpper = .ok 0 := by
  constructor
  · exact (C6_styleFactor sysC6.user_responses tMinimal
      "q2.1.1" "minimal" none (by decide)).1.mpr (by decide)
  · exact (C6_styleFactor sysC6.user_responses tUpper
      "q2.1.1" "minimal" none (by decide)).2 (by decide)

/-! Claim C2. -/

/-- Claim C2, counterexample.: The claim quantifies over every response store
state, but when the stored `q2.1.1` response is the boolean `True` the
source evaluates `True.lower()` and raises `AttributeError`
(`calculate_template_match_score` returns no score at all), so
"matchScore lies in [0,100] for every response store state" fails. -/
theorem C2_counterexample :
    calculate_template_match_score sysBad tMinimal = .error () := rfl

/-- Claim C2 (amended).: Provided the stored design-style response (if any) is
a string, `calculate_template_match_score` returns
`min(sf + cf + ff + tf, 100)` where the four factors are all-or-nothing
(`sf ∈ {0,25}`, `cf ∈ {0,20}`, `ff ∈ {0,30}`, `tf ∈ {0,25}`), the result
lies in `[0,100]`, absence of any one designated response leaves that
single factor `0` without error, and the empty store yields `0`. -/
theorem C2_matchScore (sys : System) (t : Template)
    (hs : (storeLookup sys.user_responses "q2.1.1").all
      (fun r => isVStr r.response) = true) :
    ∃ sf : ℚ,
      styleFactor sys.user_responses t = .ok sf ∧
      (sf = 0 ∨ sf = 25) ∧
      (storeLookup sys.user_responses "q2.1.1" = none → sf = 0) ∧
      (colorFactor sys.user_responses t = 0 ∨
        colorFactor sys.user_responses t = 20) ∧
      (storeLookup sys.user_responses "q1.3.2" = none →
        colorFactor sys.user_responses t = 0) ∧
      (functionalityFactor sys.user_responses t = 0 ∨
        functionalityFactor sys.user_responses t = 30) ∧
      (storeLookup sys.user_responses "q1.1.1" = none →
        functionalityFactor sys.user_responses t = 0) ∧
      (technicalFactor sys.user_responses t = 0 ∨
        technicalFactor sys.user_responses t = 25) ∧
      (storeLookup sys.user_responses "q2.2.1" = none →
        technicalFactor sys.user_responses t = 0) ∧
      calculate_template_match_score sys t =
        .ok (min (sf + colorFactor sys.user_responses t +
          functionalityFactor sys.user_responses t +
          technicalFactor sys.user_responses t) 100) ∧
      (∀ q : ℚ, calculate_template_match_score sys t = .ok q →
        0 ≤ q ∧ q ≤ 100) ∧
      (sys.user_responses = [] → calculate_template_match_score sys t = .ok 0) := by
  obtain ⟨sf, hsf, hsf01, hsfnone⟩ :
      ∃ sf : ℚ, styleFactor sys.user_responses t = .ok sf ∧
        (sf = 0 ∨ sf = 25) ∧
        (storeLookup sys.user_responses "q2.1.1" = none → sf = 0) := by
    cases hl : storeLookup sys.user_responses "q2.1.1" with
    | none =>
      refine ⟨0, ?_, Or.inl rfl, fun _ => rfl⟩
      unfold styleFactor
      rw [hl]
    | some r =>
      obtain ⟨rid, rv, rd⟩ := r
      cases rv with
      | vStr s =>
        refine ⟨if pyLower s ∈ t.style_tags then 25 else 0, ?_, ?_, ?_⟩
        · unfold styleFactor
          simp only [hl]
        · by_cases hm : pyLower s ∈ t.style_tags
          · rw [if_pos hm]
            exact Or.inr rfl
          · rw [if_neg hm]
            exact Or.inl rfl
        · intro hnone
          simp at hnone
      | vBool b =>
        rw [hl] at hs
        simp [isVStr] at hs
      | vInt n =>
        rw [hl] at hs
        simp [isVStr] at hs
      | vList l =>
        rw [hl] at hs
        simp [isVStr] at hs
  have hcf : (colorFactor sys.user_responses t = 0 ∨
      colorFactor sys.user_responses t = 20) ∧
      (storeLookup sys.user_responses "q1.3.2" = none →
        colorFactor sys.user_responses t = 0) := by
    unfold colorFactor
    cases hl : storeLookup sys.user_responses "q1.3.2" with
    | none => exact ⟨Or.inl rfl, fun _ => rfl⟩
    | some r =>
      refine ⟨?_, fun hnone => by simp at hnone⟩
      simp only []
      by_cases hv : valueMem r.response t.color_schemes = true
      · rw [if_pos hv]
        exact Or.inr rfl
      · rw [if_neg hv]
        exact Or.inl rfl
  have hff : (functionalityFactor sys.user_responses t = 0 ∨
      functionalityFactor sys.user_responses t = 30) ∧
      (storeLookup sys.user_responses "q1.1.1" = none →
        functionalityFactor sys.user_responses t = 0) := by
    unfold functionalityFactor
    cases hl : storeLookup sys.user_responses "q1.1.1" with
    | none => exact ⟨Or.inl rfl, fun _ => rfl⟩
    | some r =>
      refine ⟨?_, fun hnone => by simp at hnone⟩
      simp only []
      by_cases hv : valueMem r.response t.suitable_for = true
      · rw [if_pos hv]
        exact Or.inr rfl
      · rw [if_neg hv]
        exact Or.inl rfl
  have htf : (technicalFactor sys.user_responses t = 0 ∨
      technicalFactor sys.user_responses t = 25) ∧
      (storeLookup sys.user_responses "q2.2.1" = none →
        technicalFactor sys.user_responses t = 0) := by
    unfold technicalFactor
    cases hl : storeLookup sys.user_responses "q2.2.1" with
    | none => exact ⟨Or.inl rfl, fun _ => rfl⟩
    | some r =>
      refine ⟨?_, fun hnone => by simp at hnone⟩
      simp only []
      by_cases hv : valueMem r.response t.compatible_versions = true
      · rw [if_pos hv]
        exact Or.inr rfl
      · rw [if_neg hv]
        exact Or.inl rfl
  have hms : calculate_template_match_score sys t =
      .ok (min (sf + colorFactor sys.user_responses t +
        functionalityFactor sys.user_responses t +
        technicalFactor sys.user_responses t) 100) := by
    unfold calculate_template_match_score
    simp only [hsf]
  refine ⟨sf, hsf, hsf01, hsfnone, hcf.1, hcf.2, hff.1, hff.2, htf.1, htf.2,
    hms, ?_, ?_⟩
  · intro q hq
    rw [hms] at hq
    have hq' : min (sf + colorFactor sys.user_responses t +
        functionalityFactor sys.user_responses t +
        technicalFactor sys.user_responses t) 100 = q :=
      Except.ok.inj hq
    have h0 : (0 : ℚ) ≤ sf := by rcases hsf01 with h | h <;> rw [h] <;> norm_num
    have h1 : (0 : ℚ) ≤ colorFactor sys.user_responses t := by
      rcases hcf.1 with h | h <;> rw [h] <;> norm_num
    have h2 : (0 : ℚ) ≤ functionalityFactor sys.user_responses t := by
      rcases hff.1 with h | h <;> rw [h] <;> norm_num
    have h3 : (0 : ℚ) ≤ technicalFactor sys.user_responses t := by
      rcases htf.1 with h | h <;> rw [h] <;> norm_num
    rw [← hq']
    constructor
    · exact le_min (by linarith) (by norm_num)
    · exact min_le_right _ _
  · intro hemp
    have hl1 : storeLookup sys.user_responses "q2.1.1" = none := by
      rw [hemp]; rfl
    have hl2 : storeLookup sys.user_responses "q1.3.2" = none := by
      rw [hemp]; rfl
    have hl3 : storeLookup sys.user_responses "q1.1.1" = none := by
      rw [hemp]; rfl
    have hl4 : storeLookup sys.user_responses "q2.2.1" = none := by
      rw [hemp]; rfl
    rw [hms, hsfnone hl1, hcf.2 hl2, hff.2 hl3, htf.2 hl4]
    norm_num

/-- Claim C2, witness.: The specification's matching scenario: style
`"minimal"`, color `"beige_orange"`, goal `"교육"`, version absent gives a
well-defined score, and the match score of `tMinimal` is in range. -/
theorem C2_witness :
    ∃ q : ℚ, calculate_template_match_score sysMatch tMinimal = .ok q ∧
      0 ≤ q ∧ q ≤ 100 := by
  obtain ⟨sf, _, _, _, _, _, _, _, _, _, hms, hrange, _⟩ :=
    C2_matchScore sysMatch tMinimal (by decide)
  exact ⟨_, hms, hrange _ hms⟩

/-! Claim C3. -/

/-- An existing timeline response whose value is none of the three literal
keys falls back to the standard one-week roadmap key. -/
theorem timelineKey_unrec (s : String) (h1 : s ≠ "1일") (h2 : s ≠ "1주")
    (h3 : s ≠ "1개월") :
    timelineKey (.vStr s) = .ok "standard_timeline_1week" := by
  unfold timelineKey
  split <;> simp_all

/-- Claim C3, counterexample.: With no stored timeline response (`sysMain`),
`generate_implementation_plan` returns empty phases, an empty resource
list, and no customization level — it does **not** consult the standard
roadmap, whose steps are nonempty (second conjunct: the same
configuration's standard bucket is used for an existing but unrecognized
value `"2개월"`, yielding the nonempty steps the claim expected in the
absent case as well). -/
theorem C3_counterexample :
    generate_implementation_plan sysMain =
      .ok { timeline := .vStr "1주", experience_level := .vStr "중급자",
            phases := [], resources_needed := [], estimated_hours := 0,
            customization_level := none } ∧
    generate_implementation_plan sysUnrec =
      .ok { timeline := .vStr "2개월", experience_level := .vStr "중급자",
            phases := ["기획", "디자인", "제작"],
            resources_needed := ["PowerPoint"], estimated_hours := 0,
            customization_level := some "moderate" } := ⟨rfl, rfl⟩

/-- Claim C3 (amended).: When no `q5.1.1` response is stored,
`generate_implementation_plan` returns only the defaulted labels — phases
empty, resources empty, no customization level; the standard bucket's
roadmap is consulted **only** when a timeline response exists, and an
existing response with an unrecognized string value maps to the standard
bucket (phases, resources, customization level taken from that roadmap). -/
theorem C3_generatePlan (sys : System) :
    (storeLookup sys.user_responses "q5.1.1" = none →
      generate_implementation_plan sys = .ok
        { timeline := .vStr "1주"
          experience_level :=
            match storeLookup sys.user_responses "q5.1.2" with
            | some r => r.response
            | none => .vStr "중급자"
          phases := []
          resources_needed := []
          estimated_hours := 0
          customization_level := none }) ∧
    (∀ (rid s : String) (rd : Option String) (ph : WPhase) (sec : WSection),
      storeLookup sys.user_responses "q5.1.1" =
        some { question_id := rid, response := .vStr s, additional_details := rd } →
      s ≠ "1일" → s ≠ "1주" → s ≠ "1개월" →
      pyIndex sys.config.workflow_phases 4 = .ok ph →
      pyIndex ph.sections 0 = .ok sec →
      generate_implementation_plan sys = .ok
        { timeline := .vStr s
          experience_level :=
            match storeLookup sys.user_responses "q5.1.2" with
            | some r => r.response
            | none => .vStr "중급자"
          phases := ((roadmapGet sec.implementation_roadmaps
            "standard_timeline_1week").bind Roadmap.steps).getD []
          resources_needed := [((roadmapGet sec.implementation_roadmaps
            "standard_timeline_1week").bind Roadmap.resources).getD ""]
          estimated_hours := 0
          customization_level := some (((roadmapGet sec.implementation_roadmaps
            "standard_timeline_1week").bind Roadmap.customization_level).getD
              "moderate") }) := by
  constructor
  · intro h
    unfold generate_implementation_plan
    simp only [h]
  · intro rid s rd ph sec hl h1 h2 h3 hph hsec
    have hk : timelineKey (.vStr s) = .ok "standard_timeline_1week" :=
      timelineKey_unrec s h1 h2 h3
    unfold generate_implementation_plan
    simp only [hl, hk, hph, hsec]

/-- Claim C3, witness.: On `sysMain` (no timeline) the amended theorem gives
the default-label plan; on `sysUnrec` (unrecognized value `"2개월"`) it
yields the standard-roadmap plan. -/
theorem C3_witness :
    generate_implementation_plan sysMain = .ok
      { timeline := .vStr "1주", experience_level := .vStr "중급자",
        phases := [], resources_needed := [], estimated_hours := 0,
        customization_level := none } ∧
    generate_implementation_plan sysUnrec = .ok
      { timeline := .vStr "2개월", experience_level := .vStr "중급자",
        phases := ["기획", "디자인", "제작"],
        resources_needed := ["PowerPoint"], estimated_hours := 0,
        customization_level := some "moderate" } := by
  constructor
  · exact (C3_generatePlan sysMain).1 (by decide)
  · exact (C3_generatePlan sysUnrec).2 "q5.1.1" "2개월" none _ _ (by decide)
      (by decide) (by decide) (by decide) rfl rfl

/-! Claim C5. -/

/-- Python indexing fails exactly outside `[-len, len)`. -/
theorem pyIndex_error {α : Type} (l : List α) (i : ℤ)
    (h : (l.length : ℤ) ≤ i ∨ i < -(l.length : ℤ)) : pyIndex l i = .error () := by
  by_cases hneg : i < 0
  · have hj : (if i < 0 then i + (l.length : ℤ) else i) = i + l.length :=
      if_pos hneg
    simp only [pyIndex, hj, if_neg (show ¬ (0 ≤ i + (l.length : ℤ)) by omega)]
  · have hj : (if i < 0 then i + (l.length : ℤ) else i) = i := if_neg hneg
    simp only [pyIndex, hj, if_pos (show (0 : ℤ) ≤ i by omega)]
    rw [List.getElem?_eq_none (show l.length ≤ i.toNat by omega)]

/-- Python indexing with a nonnegative in-range index. -/
theorem pyIndex_ok_nonneg {α : Type} (l : List α) (i : ℤ)
    (h : 0 ≤ i ∧ i < (l.length : ℤ)) :
    pyIndex l i = .ok (l.get ⟨i.toNat, by omega⟩) := by
  have hj : (if i < 0 then i + (l.length : ℤ) else i) = i := if_neg (by omega)
  simp only [pyIndex, hj, if_pos h.1]
  rw [List.getElem?_eq_getElem (show i.toNat < l.length by omega)]
  rfl

/-- Python indexing with a negative index wraps once. -/
theorem pyIndex_ok_neg {α : Type} (l : List α) (i : ℤ)
    (h : -(l.length : ℤ) ≤ i ∧ i < 0) :
    pyIndex l i = .ok (l.get ⟨(i + l.length).toNat, by omega⟩) := by
  have hj : (if i < 0 then i + (l.length : ℤ) else i) = i + l.length :=
    if_pos h.2
  simp only [pyIndex, hj, if_pos (show (0 : ℤ) ≤ i + l.length by omega)]
  rw [List.getElem?_eq_getElem (show (i + (l.length : ℤ)).toNat < l.length by omega)]
  rfl

/-- Claim C5 (amended).: `get_questions_by_phase` returns phase
`phase_id`'s ordered questions for `1 ≤ phase_id ≤ n` and fails for
`phase_id > n` or `phase_id ≤ -n`; but for `1 - n ≤ phase_id ≤ 0` it does
**not** fail: Python's negative indexing wraps and the questions of phase
`n + phase_id` are returned (in particular `phase_id = 0` yields the last
phase). -/
theorem C5_questionsByPhase (sys : System) (i : ℤ) :
    ((sys.config.workflow_phases.length : ℤ) < i ∨
        i ≤ -(sys.config.workflow_phases.length : ℤ) →
      get_questions_by_phase sys i = .error ()) ∧
    (∀ _ : 1 ≤ i ∧ i ≤ (sys.config.workflow_phases.length : ℤ),
      get_questions_by_phase sys i =
        .ok (phaseQuestions (sys.config.workflow_phases.get
          ⟨(i - 1).toNat, by omega⟩))) ∧
    (∀ _ : 1 - (sys.config.workflow_phases.length : ℤ) ≤ i ∧ i ≤ 0,
      get_questions_by_phase sys i =
        .ok (phaseQuestions (sys.config.workflow_phases.get
          ⟨(i - 1 + sys.config.workflow_phases.length).toNat, by omega⟩))) := by
  refine ⟨?_, ?_, ?_⟩
  · intro h
    unfold get_questions_by_phase
    rw [pyIndex_error _ _ (by omega)]
    rfl
  · intro h
    unfold get_questions_by_phase
    rw [pyIndex_ok_nonneg _ (i - 1) (by omega)]
    rfl
  · intro h
    unfold get_questions_by_phase
    rw [pyIndex_ok_neg _ (i - 1) (by omega)]
    have : (i - 1 + (sys.config.workflow_phases.length : ℤ)).toNat =
        (i - 1 + sys.config.workflow_phases.length).toNat := rfl
    rfl

/-- Claim C5, counterexample.: On the five-phase `sysMain`, `phase_id = 0`
does not fail: it returns the **last** phase's questions (`[qTimeline]`),
and `phase_id = -4` returns the first phase's questions — both directly
contradicting "fails ... in particular for phaseIndex 0 and for negative
indices". -/
theorem C5_counterexample :
    get_questions_by_phase sysMain 0 = .ok [qTimeline] ∧
    get_questions_by_phase sysMain (-4) = .ok [qContent, qAudience] := ⟨rfl, rfl⟩

/-- Claim C5, witness.: In-range and out-of-range behavior on `sysMain`. -/
theorem C5_witness :
    get_questions_by_phase sysMain 2 = .ok [qStyle] ∧
    get_questions_by_phase sysMain 6 = .error () ∧
    get_questions_by_phase sysMain (-5) = .error () := by
  refine ⟨?_, ?_, ?_⟩
  · have h := (C5_questionsByPhase sysMain 2).2.1 ⟨by decide, by decide⟩
    rw [h]
    rfl
  · exact (C5_questionsByPhase sysMain 6).1 (by decide)
  · exact (C5_questionsByPhase sysMain (-5)).1 (by decide)

/-! Claim C8. -/

/-- In-place replacement: the first entry with the target key after the
map is `(k, r)` whenever some entry with that key exists. -/
theorem find?_map_set (k : String) (r : UserResponse) :
    ∀ st : Store, st.any (fun p => p.1 == k) = true →
      (st.map (fun p => if p.1 == k then (k, r) else p)).find?
        (fun p => p.1 == k) = some (k, r)
| [], h => by simp at h
| e :: st, h => by
  cases he : (e.1 == k) with
  | true =>
    have hk : (((k, r) : String × UserResponse).1 == k) = true := by simp
    rw [List.map_cons, if_pos he, List.find?_cons, hk]
  | false =>
    have h' : st.any (fun p => p.1 == k) = true := by
      simp only [List.any_cons, he, Bool.false_or] at h
      exact h
    have hne : ¬ ((e.1 == k) = true) := by simp [he]
    rw [List.map_cons, if_neg hne, List.find?_cons, he]
    exact find?_map_set k r st h'

/-- In-place replacement leaves lookups at every other key unchanged. -/
theorem find?_map_set_ne (k y : String) (r : UserResponse) (hy : y ≠ k) :
    ∀ st : Store,
      (st.map (fun p => if p.1 == k then (k, r) else p)).find?
          (fun p => p.1 == y) =
        st.find? (fun p => p.1 == y)
| [] => rfl
| e :: st => by
  cases he : (e.1 == k) with
  | true =>
    have hek : e.1 = k := eq_of_beq he
    have hky : (((k, r) : String × UserResponse).1 == y) = false := by
      simp only []
      exact beq_eq_false_iff_ne.mpr fun hh => hy hh.symm
    have hey : (e.1 == y) = false := by
      rw [hek]
      exact beq_eq_false_iff_ne.mpr fun hh => hy hh.symm
    rw [List.map_cons, if_pos he, List.find?_cons, hky, List.find?_cons, hey]
    exact find?_map_set_ne k y r hy st
  | false =>
    have hne : ¬ ((e.1 == k) = true) := by simp [he]
    cases hey : (e.1 == y) with
    | true =>
      rw [List.map_cons, if_neg hne, List.find?_cons, hey, List.find?_cons, hey]
    | false =>
      rw [List.map_cons, if_neg hne, List.find?_cons, hey, List.find?_cons, hey]
      exact find?_map_set_ne k y r hy st

/-- In-place replacement preserves the number of entries with the key. -/
theorem countP_map_set (k : String) (r : UserResponse) :
    ∀ st : Store,
      (st.map (fun p => if p.1 == k then (k, r) else p)).countP
          (fun p => p.1 == k) =
        st.countP (fun p => p.1 == k)
| [] => rfl
| e :: st => by
  cases he : (e.1 == k) with
  | true =>
    rw [List.map_cons, if_pos he, List.countP_cons, List.countP_cons,
      countP_map_set k r st, he]
    simp
  | false =>
    have hne : ¬ ((e.1 == k) = true) := by simp [he]
    rw [List.map_cons, if_neg hne, List.countP_cons, List.countP_cons,
      countP_map_set k r st]

/-- Lemma: `storeSet` stores its entry retrievably. -/
theorem storeLookup_storeSet_self (st : Store) (k : String) (r : UserResponse) :
    storeLookup (storeSet st k r) k = some r := by
  unfold storeSet storeLookup
  by_cases ha : st.any (fun p => p.1 == k) = true
  · rw [if_pos ha, find?_map_set k r st ha]
    rfl
  · rw [if_neg ha]
    have hnone : st.find? (fun p => p.1 == k) = none := by
      rw [List.find?_eq_none]
      intro a hmem hp
      exact ha (List.any_eq_true.mpr ⟨a, hmem, hp⟩)
    rw [List.find?_append, hnone]
    simp

/-- Lemma: `storeSet` does not disturb other keys. -/
theorem storeLookup_storeSet_ne (st : Store) (k y : String) (r : UserResponse)
    (hy : y ≠ k) : storeLookup (storeSet st k r) y = storeLookup st y := by
  unfold storeSet storeLookup
  by_cases ha : st.any (fun p => p.1 == k) = true
  · rw [if_pos ha, find?_map_set_ne k y r hy st]
  · rw [if_neg ha, List.find?_append]
    have h2 : [(k, r)].find? (fun p => p.1 == y) = none := by
      rw [List.find?_eq_none]
      intro a hmem hp
      simp at hmem
      rw [hmem] at hp
      simp at hp
      exact hy hp.symm
    rw [h2]
    cases st.find? (fun p => p.1 == y) <;> rfl

/-- After `storeSet`, exactly one entry carries the key (on stores with at
most one entry per key, i.e. every state reachable from a Python dict). -/
theorem countP_storeSet (st : Store) (k : String) (r : UserResponse)
    (h : st.countP (fun p => p.1 == k) ≤ 1) :
    (storeSet st k r).countP (fun p => p.1 == k) = 1 := by
  unfold storeSet
  by_cases ha : st.any (fun p => p.1 == k) = true
  · rw [if_pos ha, countP_map_set]
    have hpos : 0 < st.countP (fun p => p.1 == k) := by
      rw [List.countP_pos]
      obtain ⟨a, hmem, hp⟩ := List.any_eq_true.mp ha
      exact ⟨a, hmem, hp⟩
    omega
  · rw [if_neg ha, List.countP_append]
    have h0 : st.countP (fun p => p.1 == k) = 0 := by
      rw [List.countP_eq_zero]
      intro a hmem hp
      exact ha (List.any_eq_true.mpr ⟨a, hmem, hp⟩)
    rw [h0]
    simp [List.countP_cons]

/-- Claim C8 (confirmed).: `submit_response` always returns success; submitting
`x` twice with different values leaves exactly one stored response for `x`,
holding the second value and its details (no history of the first value),
and every other key's lookup is unchanged. Stated for stores with at most
one entry per key — every state reachable through the dict. -/
theorem C8_submit (sys : System) (x : String) (v1 v2 : Value)
    (d1 d2 : Option String)
    (h1 : sys.user_responses.countP (fun p => p.1 == x) ≤ 1) :
    (submit_response sys x v1 d1).1 = true ∧
    (submit_response (submit_response sys x v1 d1).2 x v2 d2).1 = true ∧
    storeLookup
        (submit_response (submit_response sys x v1 d1).2 x v2 d2).2.user_responses
        x =
      some { question_id := x, response := v2, additional_details := d2 } ∧
    (submit_response (submit_response sys x v1 d1).2 x v2 d2).2.user_responses.countP
        (fun p => p.1 == x) = 1 ∧
    (∀ y, y ≠ x →
      storeLookup
          (submit_response (submit_response sys x v1 d1).2 x v2 d2).2.user_responses
          y =
        storeLookup sys.user_responses y) := by
  have e2 : (submit_response (submit_response sys x v1 d1).2 x v2 d2).2.user_responses =
      storeSet (storeSet sys.user_responses x
        { question_id := x, response := v1, additional_details := d1 }) x
        { question_id := x, response := v2, additional_details := d2 } := rfl
  have hc1 : (storeSet sys.user_responses x
      { question_id := x, response := v1, additional_details := d1 }).countP
        (fun p => p.1 == x) = 1 :=
    countP_storeSet _ _ _ h1
  refine ⟨rfl, rfl, ?_, ?_, ?_⟩
  · rw [e2]
    exact storeLookup_storeSet_self _ _ _
  · rw [e2]
    exact countP_storeSet _ _ _ (le_of_eq hc1)
  · intro y hy
    rw [e2, storeLookup_storeSet_ne _ _ _ _ hy, storeLookup_storeSet_ne _ _ _ _ hy]

/-- Claim C8, witness.: Submitting `"a"` then `"b"` for `q1.1.1` on the empty
store leaves exactly the response `"b"`. -/
theorem C8_witness :
    storeLookup (submit_response (submit_response sysMain "q1.1.1" (.vStr "a") none).2
        "q1.1.1" (.vStr "b") none).2.user_responses "q1.1.1" =
      some { question_id := "q1.1.1", response := .vStr "b",
             additional_details := none } ∧
    (submit_response (submit_response sysMain "q1.1.1" (.vStr "a") none).2
        "q1.1.1" (.vStr "b") none).2.user_responses.countP
      (fun p => p.1 == "q1.1.1") = 1 := by
  have h := C8_submit sysMain "q1.1.1" (.vStr "a") (.vStr "b") none none (by decide)
  exact ⟨h.2.2.1, h.2.2.2.1⟩

/-! Claims C4 and C7: state-independence helpers and sorting lemmas. -/

/-- Purity: `calculate_profile_score` reads only the config and the store. -/
theorem profile_score_state_free (sysA sysB : System)
    (hc : sysA.config = sysB.config)
    (hr : sysA.user_responses = sysB.user_responses) :
    calculate_profile_score sysA = calculate_profile_score sysB := by
  obtain ⟨cA, rA, pA, sA, recA⟩ := sysA
  obtain ⟨cB, rB, pB, sB, recB⟩ := sysB
  change cA = cB at hc
  change rA = rB at hr
  subst hc
  subst hr
  rfl

/-- Purity: `calculate_template_match_score` reads only the config and the store. -/
theorem match_score_state_free (sysA sysB : System)
    (hc : sysA.config = sysB.config)
    (hr : sysA.user_responses = sysB.user_responses) (t : Template) :
    calculate_template_match_score sysA t = calculate_template_match_score sysB t := by
  obtain ⟨cA, rA, pA, sA, recA⟩ := sysA
  obtain ⟨cB, rB, pB, sB, recB⟩ := sysB
  change cA = cB at hc
  change rA = rB at hr
  subst hc
  subst hr
  rfl

/-- Scoring a catalog reads only the config and the store. -/
theorem scoreTemplates_state_free (sysA sysB : System)
    (hc : sysA.config = sysB.config)
    (hr : sysA.user_responses = sysB.user_responses) :
    ∀ db : List Template, scoreTemplates sysA db = scoreTemplates sysB db
| [] => rfl
| t :: ts => by
  simp only [scoreTemplates, match_score_state_free sysA sysB hc hr t,
    scoreTemplates_state_free sysA sysB hc hr ts]

/-- Purity: `generate_implementation_plan` reads only the config and the store. -/
theorem plan_state_free (sysA sysB : System)
    (hc : sysA.config = sysB.config)
    (hr : sysA.user_responses = sysB.user_responses) :
    generate_implementation_plan sysA = generate_implementation_plan sysB := by
  obtain ⟨cA, rA, pA, sA, recA⟩ := sysA
  obtain ⟨cB, rB, pB, sB, recB⟩ := sysB
  change cA = cB at hc
  change rA = rB at hr
  subst hc
  subst hr
  rfl

/-- The recommendation list returned by `generate_recommendations` reads
only the config and the store. -/
theorem recommendations_state_free (sysA sysB : System)
    (hc : sysA.config = sysB.config)
    (hr : sysA.user_responses = sysB.user_responses) (db : List Template) :
    (generate_recommendations sysA db).map (fun p => p.1) =
      (generate_recommendations sysB db).map (fun p => p.1) := by
  unfold generate_recommendations
  rw [scoreTemplates_state_free sysA sysB hc hr db]
  cases scoreTemplates sysB db <;> rfl

/-- The Python comparator is transitive. -/
theorem recLE_trans (a b c : TemplateRecommendation) :
    recLE a b → recLE b c → recLE a c := by
  simp only [recLE, decide_eq_true_eq]
  exact fun hab hbc => le_trans hbc hab

/-- The Python comparator is total. -/
theorem recLE_total (a b : TemplateRecommendation) : recLE a b || recLE b a := by
  rcases le_total b.match_score a.match_score with h | h <;> simp [recLE, h]

/-- Stability of the sort, phrased per score class: for every score value,
the sorted list restricted to that score is the input list restricted to
that score, in the same order. -/
theorem filter_mergeSort_recLE (l : List TemplateRecommendation) (q : ℚ) :
    (l.mergeSort recLE).filter (fun r => r.match_score == q) =
      l.filter (fun r => r.match_score == q) := by
  have hpw : (l.filter (fun r => r.match_score == q)).Pairwise
      (fun a b => recLE a b = true) := by
    apply List.pairwise_of_forall_mem_list
    intro a ha b hb
    have ha' : a.match_score = q := by
      have := (List.mem_filter.mp ha).2
      exact beq_iff_eq.mp this
    have hb' : b.match_score = q := by
      have := (List.mem_filter.mp hb).2
      exact beq_iff_eq.mp this
    simp [recLE, ha', hb']
  have hsub : List.Sublist (l.filter (fun r => r.match_score == q))
      (l.mergeSort recLE) :=
    List.sublist_mergeSort recLE_trans recLE_total hpw (List.filter_sublist l)
  have hff : (l.filter (fun r => r.match_score == q)).filter
      (fun r => r.match_score == q) = l.filter (fun r => r.match_score == q) := by
    simp [List.filter_filter]
  have hsub2 : List.Sublist (l.filter (fun r => r.match_score == q))
      ((l.mergeSort recLE).filter (fun r => r.match_score == q)) := by
    have h := hsub.filter (fun r => r.match_score == q)
    rwa [hff] at h
  have hlen : ((l.mergeSort recLE).filter (fun r => r.match_score == q)).length =
      (l.filter (fun r => r.match_score == q)).length :=
    ((List.mergeSort_perm l recLE).filter _).length_eq
  exact (hsub2.eq_of_length hlen.symm).symm

/-- The scored list has one entry per catalog template. -/
theorem scoreTemplates_length (sys : System) :
    ∀ (db : List Template) (scored : List TemplateRecommendation),
      scoreTemplates sys db = .ok scored → scored.length = db.length
| [], scored, h => by
  simp only [scoreTemplates] at h
  have h' : [] = scored := Except.ok.inj h
  rw [← h']
  rfl
| t :: ts, scored, h => by
  simp only [scoreTemplates] at h
  cases hm : calculate_template_match_score sys t with
  | error e =>
    simp only [hm] at h
    cases h
  | ok s =>
    simp only [hm] at h
    cases hs : scoreTemplates sys ts with
    | error e =>
      simp only [hs] at h
      cases h
    | ok rest =>
      simp only [hs] at h
      have h' : mkRecommendation t s :: rest = scored := Except.ok.inj h
      rw [← h', List.length_cons, scoreTemplates_length sys ts rest hs,
        List.length_cons]

/-- Claim C4, counterexample.: The claim quantifies over every response store
state, but with a boolean stored at `q2.1.1` (`sysBad`) and a nonempty
catalog the underlying match-score computation raises (`AttributeError` in
Python), so `generate_recommendations` returns no sequence at all. -/
theorem C4_counterexample :
    generate_recommendations sysBad [tMinimal] = .error () := rfl

/-- Claim C4 (amended).: Whenever `generate_recommendations` succeeds (in
particular whenever the stored design-style response, if any, is a
string), it returns the first 10 entries of the scored catalog stably
sorted by match score descending: the result has length
`min 10 |catalog|`, is sorted descending, every score class keeps the
input catalog order (stability), re-invoking on the updated system state
returns the identical result, and the empty catalog yields the empty
sequence. (The model is purely functional, so the input catalog is never
mutated by construction.) -/
theorem C4_recommendations (sys : System) (db : List Template)
    (recs : List TemplateRecommendation) (sys2 : System)
    (h : generate_recommendations sys db = .ok (recs, sys2)) :
    (∃ scored : List TemplateRecommendation,
      scoreTemplates sys db = .ok scored ∧
      scored.length = db.length ∧
      sys2.recommendations = scored.mergeSort recLE ∧
      (∀ q : ℚ, sys2.recommendations.filter (fun r => r.match_score == q) =
        scored.filter (fun r => r.match_score == q))) ∧
    recs = sys2.recommendations.take 10 ∧
    recs.length = min 10 db.length ∧
    recs.Pairwise (fun a b => b.match_score ≤ a.match_score) ∧
    generate_recommendations sys2 db = .ok (recs, sys2) ∧
    (db = [] → recs = []) := by
  cases hs : scoreTemplates sys db with
  | error e =>
    simp only [generate_recommendations, hs] at h
    cases h
  | ok scored =>
    simp only [generate_recommendations, hs] at h
    have hp := Except.ok.inj h
    have h1 : recs = (scored.mergeSort recLE).take 10 :=
      (congrArg Prod.fst hp).symm
    have h2 : sys2 = { sys with recommendations := scored.mergeSort recLE } :=
      (congrArg Prod.snd hp).symm
    subst h1
    subst h2
    refine ⟨⟨scored, rfl, scoreTemplates_length sys db scored hs, rfl,
      fun q => filter_mergeSort_recLE scored q⟩, rfl, ?_, ?_, ?_, ?_⟩
    · rw [List.length_take, List.length_mergeSort,
        scoreTemplates_length sys db scored hs]
    · have hsorted : (scored.mergeSort recLE).Pairwise
          (fun a b => recLE a b = true) :=
        List.sorted_mergeSort recLE_trans recLE_total scored
      exact List.Pairwise.sublist (List.take_sublist 10 _)
        (hsorted.imp fun hab => of_decide_eq_true hab)
    · have hst : scoreTemplates
          { sys with recommendations := scored.mergeSort recLE } db =
          scoreTemplates sys db :=
        scoreTemplates_state_free
          { sys with recommendations := scored.mergeSort recLE } sys rfl rfl db
      simp only [generate_recommendations, hst, hs]
    · intro hdb
      subst hdb
      have h0 : [] = scored := Except.ok.inj hs
      rw [← h0, List.mergeSort_nil]
      rfl

/-- Claim C4, witness.: On the store of the specification's matching scenario
and the catalog `[tMinimal, tUpper]`, the call succeeds with the two
recommendations scored 75 and 0 in catalog order; the amended theorem
instantiates with length `min 10 2`, descending sortedness, and identical
re-invocation on the updated state. -/
theorem C4_witness :
    generate_recommendations sysMatch [tMinimal, tUpper] =
      .ok (recsW, sysMatchAfter) ∧
    recsW.length = min 10 [tMinimal, tUpper].length ∧
    recsW.Pairwise (fun a b => b.match_score ≤ a.match_score) ∧
    generate_recommendations sysMatchAfter [tMinimal, tUpper] =
      .ok (recsW, sysMatchAfter) := by
  have hm1 : calculate_template_match_score sysMatch tMinimal = .ok 75 := by
    have h1 : styleFactor sysMatch.user_responses tMinimal = .ok 25 := by
      have hl : storeLookup sysMatch.user_responses "q2.1.1" =
          some (resp "q2.1.1" (.vStr "minimal")) := by decide
      have hmem : pyLower "minimal" ∈ tMinimal.style_tags := by decide
      simp only [styleFactor, hl, resp]
      rw [if_pos hmem]
    have h2 : colorFactor sysMatch.user_responses tMinimal = 20 := by
      have hl : storeLookup sysMatch.user_responses "q1.3.2" =
          some (resp "q1.3.2" (.vStr "beige_orange")) := by decide
      have hmem : valueMem (.vStr "beige_orange") tMinimal.color_schemes = true := by
        decide
      simp only [colorFactor, hl, resp]
      rw [if_pos hmem]
    have h3 : functionalityFactor sysMatch.user_responses tMinimal = 30 := by
      have hl : storeLookup sysMatch.user_responses "q1.1.1" =
          some (resp "q1.1.1" (.vStr "교육")) := by decide
      have hmem : valueMem (.vStr "교육") tMinimal.suitable_for = true := by decide
      simp only [functionalityFactor, hl, resp]
      rw [if_pos hmem]
    have h4 : technicalFactor sysMatch.user_responses tMinimal = 0 := by
      have hl : storeLookup sysMatch.user_responses "q2.2.1" = none := by decide
      simp only [technicalFactor, hl]
    simp only [calculate_template_match_score, h1, h2, h3, h4]
    norm_num
  have hm2 : calculate_template_match_score sysMatch tUpper = .ok 0 := by
    have h1 : styleFactor sysMatch.user_responses tUpper = .ok 0 := by
      have hl : storeLookup sysMatch.user_responses "q2.1.1" =
          some (resp "q2.1.1" (.vStr "minimal")) := by decide
      have hmem : ¬ (pyLower "minimal" ∈ tUpper.style_tags) := by decide
      simp only [styleFactor, hl, resp]
      rw [if_neg hmem]
    have h2 : colorFactor sysMatch.user_responses tUpper = 0 := by
      have hl : storeLookup sysMatch.user_responses "q1.3.2" =
          some (resp "q1.3.2" (.vStr "beige_orange")) := by decide
      have hmem : valueMem (.vStr "beige_orange") tUpper.color_schemes = false := by
        decide
      simp only [colorFactor, hl, resp, hmem]
      rw [if_neg (by simp [hmem])]
    have h3 : functionalityFactor sysMatch.user_responses tUpper = 0 := by
      have hl : storeLookup sysMatch.user_responses "q1.1.1" =
          some (resp "q1.1.1" (.vStr "교육")) := by decide
      have hmem : valueMem (.vStr "교육") tUpper.suitable_for = false := by decide
      simp only [functionalityFactor, hl, resp]
      rw [if_neg (by simp [hmem])]
    have h4 : technicalFactor sysMatch.user_responses tUpper = 0 := by
      have hl : storeLookup sysMatch.user_responses "q2.2.1" = none := by decide
      simp only [technicalFactor, hl]
    simp only [calculate_template_match_score, h1, h2, h3, h4]
    norm_num
  have hsc : scoreTemplates sysMatch [tMinimal, tUpper] = .ok recsW := by
    simp only [scoreTemplates, hm1, hm2]
    rfl
  have hsorted : recsW.Pairwise (fun a b => recLE a b = true) := by
    norm_num [recsW, recLE, mkRecommendation]
  have hgen : generate_recommendations sysMatch [tMinimal, tUpper] =
      .ok (recsW, sysMatchAfter) := by
    simp only [generate_recommendations, hsc, List.mergeSort_of_sorted hsorted]
    rfl
  have h := C4_recommendations sysMatch [tMinimal, tUpper] recsW sysMatchAfter hgen
  exact ⟨hgen, h.2.2.1, h.2.2.2.1, h.2.2.2.2.1⟩

/-! Claim C7. -/

/-- Claim C7, counterexample.: Two systems with the same configuration and the
same response store but different cached `recommendations` fields export
different profiles: the recommendations embedded in `export_user_profile`
come from the cached field written by the last `generate_recommendations`
call, not from a recomputation over the current store — so state other
than the response store does influence results across calls. -/
theorem C7_counterexample :
    sysC7a.config = sysC7b.config ∧
    sysC7a.user_responses = sysC7b.user_responses ∧
    (export_user_profile sysC7a).recommendations ≠
      (export_user_profile sysC7b).recommendations := by
  refine ⟨rfl, rfl, ?_⟩
  decide

/-- Claim C7 (amended).: `calculate_profile_score`,
`calculate_template_match_score`, the recommendation list of
`generate_recommendations`, and `generate_implementation_plan` are pure
functions of the configuration and the current response store — no other
component field influences them; but `export_user_profile` embeds the
first five entries of the cached `recommendations` field rather than
recomputing them. -/
theorem C7_stateless (sysA sysB : System)
    (hc : sysA.config = sysB.config)
    (hr : sysA.user_responses = sysB.user_responses) :
    calculate_profile_score sysA = calculate_profile_score sysB ∧
    (∀ t, calculate_template_match_score sysA t =
      calculate_template_match_score sysB t) ∧
    (∀ db, (generate_recommendations sysA db).map (fun p => p.1) =
      (generate_recommendations sysB db).map (fun p => p.1)) ∧
    generate_implementation_plan sysA = generate_implementation_plan sysB ∧
    (export_user_profile sysA).recommendations =
      (sysA.recommendations.take 5).map (fun r =>
        { name := r.template_name, url := r.template_url,
          score := r.match_score }) := by
  refine ⟨profile_score_state_free sysA sysB hc hr,
    fun t => match_score_state_free sysA sysB hc hr t,
    fun db => recommendations_state_free sysA sysB hc hr db,
    plan_state_free sysA sysB hc hr, rfl⟩

/-- Claim C7, witness.: The two systems of the counterexample share config and
store, so the four consumers agree on them even though their caches
differ. -/
theorem C7_witness :
    calculate_profile_score sysC7a = calculate_profile_score sysC7b ∧
    generate_implementation_plan sysC7a = generate_implementation_plan sysC7b := by
  have h := C7_stateless sysC7a sysC7b rfl rfl
  exact ⟨h.1, h.2.2.2.1⟩

end PPTDesigner
